import Mathlib

/-!
Shallow embedding of the community profile state machine
(src/unnamed/part_000, an xstate v4 Machine) and of the guard table of the
member machine (src/src/routes/members/machines/member.js).

The machine definition is data; its behaviour under the xstate v4
interpreter is embedded as an executable step function:

* states are the leaf configurations of the statechart (compound states
  are resolved to their initial leaf, as xstate does on entry);
* the context record mirrors the context object of the machine;
* guards and actions are translated one-for-one from the guards/actions
  tables of the source (lines 231-287 of part_000); assign actions return
  a patched context, effect actions and invocation starts are recorded in
  an effect list;
* transient (empty-string event) transitions are resolved on entry by
  settle; the lemma settle_stable shows the resulting configuration has
  no pending transient transition, so one resolution pass reaches the
  stable configuration the interpreter loops towards;
* service completions and failures are delivered as events
  (done.invoke.X / error.platform.X); the onDone/onError handlers exist
  only on the invoking state, and xstate disposes an invocation when its
  state is exited, so a completion arriving in any other configuration is
  a no-op;
* when the machine has reached a top-level final state it is done and
  processes no further events;
* the action queryMyFollowingSuccess dereferences context.community.id,
  which throws in JavaScript when community is undefined; the step
  function therefore returns an Option, none standing for that exception.
-/

namespace ThatUs

/-- A loaded community entity. Only its id field is consulted by the
machine (services.toggleFollow and actions.queryMyFollowingSuccess). -/
structure Community where
  id : String
deriving DecidableEq, Repr

/-- Opaque handles for the two child actors the machine spawns
(followers machine and activities machine). -/
inductive ActorRef
  | followActor
  | activitiesActor
deriving DecidableEq, Repr

/-- The machine context (part_000 lines 39-47). Fields that are
undefined until assigned are Options. -/
structure Context where
  slug : String
  community : Option Community
  followMachineServices : Option ActorRef
  activitiesMachineServices : Option ActorRef
  isFollowing : Bool
  isAuthenticated : Bool
deriving DecidableEq, Repr

/-- Leaf substates of the communityLoaded.authenticated compound state. -/
inductive AuthState
  | loadFollowing
  | toggleFollow
  | loaded
  | error
deriving DecidableEq, Repr

/-- Leaf substates of the communityLoaded compound state. -/
inductive LoadedState
  | unknown
  | authenticated (s : AuthState)
  | unAuthenticated
deriving DecidableEq, Repr

/-- Leaf state configurations of the machine. -/
inductive MState
  | validating
  | loading
  | communityLoaded (s : LoadedState)
  | notFound
  | error
deriving DecidableEq, Repr

/-- Events the machine reacts to: the two external events of the source
and the synthesized done/error events of the three invocations. -/
inductive Event
  | authenticated (status : Bool)
  | follow
  | doneQueryCommunity (data : Option Community)
  | errorQueryCommunity
  | doneQueryMyFollowing (data : List String)
  | errorQueryMyFollowing
  | doneToggleFollow (data : Bool)
  | errorToggleFollow
deriving DecidableEq, Repr

/-- Observable effects: invocation starts (with the argument the service
closure reads from the context), navigation, logging, actor spawns (with
the community value the spawning action reads from the context), and the
send of REFRESH to the follow actor reference held in the context. -/
inductive Effect
  | invokeQueryCommunity (slug : String)
  | invokeQueryMyFollowing
  | invokeToggleFollow (communityId : Option String)
  | navigate (path : String)
  | logError
  | spawnFollow (community : Option Community)
  | spawnActivities (community : Option Community)
  | sendRefresh (dest : Option ActorRef)
deriving DecidableEq, Repr

/-- Guard communityFound (line 233): event.data is not null. -/
def communityFound (data : Option Community) : Bool :=
  data.isSome

/-- Guard communityNotFound (line 234): event.data is null. -/
def communityNotFound (data : Option Community) : Bool :=
  data.isNone

/-- Guard isAuthenticated (line 235). -/
def isAuthenticated (c : Context) : Bool :=
  c.isAuthenticated

/-- Guard isUnAuthenticated (line 236), as written in the source: it
returns context.isAuthenticated, with no negation. -/
def isUnAuthenticated (c : Context) : Bool :=
  c.isAuthenticated

/-- Action setIsAuthenticated (lines 261-263). -/
def setIsAuthenticated (c : Context) (status : Bool) : Context :=
  { c with isAuthenticated := status }

/-- Action queryCommunitySuccess (lines 265-267). -/
def queryCommunitySuccess (c : Context) (data : Option Community) : Context :=
  { c with community := data }

/-- Action queryMyFollowingSuccess (lines 269-272): isFollowing becomes
event.data.includes(context.community.id). Dereferencing community.id
throws when community is undefined, hence the Option result. -/
def queryMyFollowingSuccess (c : Context) (data : List String) : Option Context :=
  c.community.map fun cm => { c with isFollowing := data.contains cm.id }

/-- Action toggleFollowSuccess (lines 274-276). -/
def toggleFollowSuccess (c : Context) (data : Bool) : Context :=
  { c with isFollowing := data }

/-- Action createFollowMachineServices (lines 278-281): spawns the
followers machine with context.community and stores the actor ref. -/
def createFollowMachineServices (c : Context) : Context × Effect :=
  ({ c with followMachineServices := some ActorRef.followActor },
   Effect.spawnFollow c.community)

/-- Action createActivityMachineServices (lines 283-286): spawns the
activities machine with context.community and stores the actor ref. -/
def createActivityMachineServices (c : Context) : Context × Effect :=
  ({ c with activitiesMachineServices := some ActorRef.activitiesActor },
   Effect.spawnActivities c.community)

/-- Action refreshFollowers (lines 257-259): sends REFRESH to the actor
reference stored in context.followMachineServices. -/
def refreshFollowers (c : Context) : Effect :=
  Effect.sendRefresh c.followMachineServices

/-- Entry effects of each leaf configuration: invocation starts for
states with an invoke (the recorded argument is what the service closure
reads from the context), the notFound entry action navigateTo(/not-found)
and the logError entry actions. -/
def entryEffects (c : Context) : MState → List Effect
  | MState.loading => [Effect.invokeQueryCommunity c.slug]
  | MState.notFound => [Effect.navigate "/not-found"]
  | MState.error => [Effect.logError]
  | MState.communityLoaded (LoadedState.authenticated AuthState.loadFollowing) =>
      [Effect.invokeQueryMyFollowing]
  | MState.communityLoaded (LoadedState.authenticated AuthState.toggleFollow) =>
      [Effect.invokeToggleFollow (c.community.map Community.id)]
  | MState.communityLoaded (LoadedState.authenticated AuthState.error) =>
      [Effect.logError]
  | _ => []

/-- Transient (empty-string event) transitions: validating (lines 60-70,
guard isValidSlug from an import outside src, kept as a parameter) and
communityLoaded.unknown (lines 121-132). Candidates are tried in
declaration order; none firing means the configuration rests. -/
def eventlessNext (isValidSlug : String → Bool) (c : Context) :
    MState → Option MState
  | MState.validating =>
      if isValidSlug c.slug then some MState.loading
      else some MState.notFound
  | MState.communityLoaded LoadedState.unknown =>
      if isAuthenticated c then
        some (MState.communityLoaded
          (LoadedState.authenticated AuthState.loadFollowing))
      else if isUnAuthenticated c then
        some (MState.communityLoaded LoadedState.unAuthenticated)
      else none
  | _ => none

/-- Resolve the transient transition of a freshly entered configuration,
collecting entry effects of the state entered through it. The lemma
settle_stable shows the result has no pending transient transition, so
this one pass computes the stable configuration the interpreter loops
towards. -/
def settle (isValidSlug : String → Bool) (c : Context) (s : MState) :
    MState × List Effect :=
  match eventlessNext isValidSlug c s with
  | none => (s, [])
  | some t => (t, entryEffects c t)

/-- Enter a transition target: entry effects of the target, then
transient-transition resolution. -/
def goto (isValidSlug : String → Bool) (c : Context) (t : MState) :
    MState × List Effect :=
  let r := settle isValidSlug c t
  (r.1, entryEffects c t ++ r.2)

/-- One interpreter step: deliver one event to a configuration and
context, yielding the new configuration, context and emitted effects.
none models a JavaScript exception thrown by an action. Handlers are
looked up innermost first; an event with no enabled handler is dropped;
a machine resting in a top-level final state processes no events. -/
def step (isValidSlug : String → Bool) (s : MState) (c : Context)
    (e : Event) : Option (MState × Context × List Effect) :=
  match s, e with
  | MState.notFound, _ => some (MState.notFound, c, [])
  | MState.error, _ => some (MState.error, c, [])
  | MState.validating, Event.authenticated status =>
      some (MState.validating, setIsAuthenticated c status, [])
  | MState.loading, Event.authenticated status =>
      some (MState.loading, setIsAuthenticated c status, [])
  | MState.communityLoaded _, Event.authenticated status =>
      let c1 := setIsAuthenticated c status
      let r := goto isValidSlug c1 (MState.communityLoaded LoadedState.unknown)
      some (r.1, c1, r.2)
  | MState.communityLoaded (LoadedState.authenticated _), Event.follow =>
      let r := goto isValidSlug c
        (MState.communityLoaded (LoadedState.authenticated AuthState.toggleFollow))
      some (r.1, c, r.2)
  | MState.loading, Event.doneQueryCommunity data =>
      if communityFound data then
        let c1 := queryCommunitySuccess c data
        let p2 := createFollowMachineServices c1
        let p3 := createActivityMachineServices p2.1
        let r := goto isValidSlug p3.1 (MState.communityLoaded LoadedState.unknown)
        some (r.1, p3.1, [p2.2, p3.2] ++ r.2)
      else if communityNotFound data then
        let r := goto isValidSlug c MState.notFound
        some (r.1, c, r.2)
      else some (MState.loading, c, [])
  | MState.loading, Event.errorQueryCommunity =>
      let r := goto isValidSlug c MState.error
      some (r.1, c, r.2)
  | MState.communityLoaded (LoadedState.authenticated AuthState.loadFollowing),
      Event.doneQueryMyFollowing data =>
      match queryMyFollowingSuccess c data with
      | none => none
      | some c1 =>
          let r := goto isValidSlug c1
            (MState.communityLoaded (LoadedState.authenticated AuthState.loaded))
          some (r.1, c1, r.2)
  | MState.communityLoaded (LoadedState.authenticated AuthState.loadFollowing),
      Event.errorQueryMyFollowing =>
      let r := goto isValidSlug c
        (MState.communityLoaded (LoadedState.authenticated AuthState.error))
      some (r.1, c, r.2)
  | MState.communityLoaded (LoadedState.authenticated AuthState.toggleFollow),
      Event.doneToggleFollow data =>
      let c1 := toggleFollowSuccess c data
      let r := goto isValidSlug c1
        (MState.communityLoaded (LoadedState.authenticated AuthState.loaded))
      some (r.1, c1, [refreshFollowers c1] ++ r.2)
  | MState.communityLoaded (LoadedState.authenticated AuthState.toggleFollow),
      Event.errorToggleFollow =>
      let r := goto isValidSlug c
        (MState.communityLoaded (LoadedState.authenticated AuthState.error))
      some (r.1, c, r.2)
  | s, _ => some (s, c, [])

/-- The initial context of createMachine(slug) (lines 39-47). -/
def initialContext (slug : String) : Context :=
  { slug := slug
    community := none
    followMachineServices := none
    activitiesMachineServices := none
    isFollowing := false
    isAuthenticated := false }

/-- Starting the interpreter: enter the initial state validating and
resolve its transient transition. -/
def start (isValidSlug : String → Bool) (slug : String) :
    MState × Context × List Effect :=
  let r := goto isValidSlug (initialContext slug) MState.validating
  (r.1, initialContext slug, r.2)

/-- Run the machine from start through a list of events, accumulating
all emitted effects. -/
def run (isValidSlug : String → Bool) (slug : String) (events : List Event) :
    Option (MState × Context × List Effect) :=
  let r0 := start isValidSlug slug
  events.foldlM
    (fun acc e =>
      (step isValidSlug acc.1 acc.2.1 e).map
        fun r => (r.1, r.2.1, acc.2.2 ++ r.2.2))
    r0

/-- Recognizer for query-community invocation starts, used to count
them. -/
def isQueryCommunityInvoke : Effect → Bool
  | Effect.invokeQueryCommunity _ => true
  | _ => false

/-- Recognizer for toggle-follow invocation starts. -/
def isToggleFollowInvoke : Effect → Bool
  | Effect.invokeToggleFollow _ => true
  | _ => false

/-- Recognizer for REFRESH sends to an actor reference. -/
def isSendRefresh : Effect → Bool
  | Effect.sendRefresh _ => true
  | _ => false

end ThatUs

namespace ThatUs.Member

/-- A loaded member profile as consulted by member.js: the services read
profileSlug and the actions read id. -/
structure Profile where
  id : String
  profileSlug : String
deriving DecidableEq, Repr

/-- The member machine context fields referenced by the guards, services
and actions of member.js. -/
structure MemberContext where
  slug : String
  profile : Option Profile
  followMachineServices : Option ActorRef
  activitiesMachineServices : Option ActorRef
  isFollowing : Bool
  isAuthenticated : Bool
deriving DecidableEq, Repr

/-- Guard profileFound (member.js line 20). -/
def profileFound (data : Option Profile) : Bool :=
  data.isSome

/-- Guard profileNotFound (member.js line 21). -/
def profileNotFound (data : Option Profile) : Bool :=
  data.isNone

/-- Guard isAuthenticated (member.js line 23). -/
def isAuthenticated (c : MemberContext) : Bool :=
  c.isAuthenticated

/-- Guard isUnAuthenticated (member.js line 24), as written in the
source: it returns context.isAuthenticated, with no negation. -/
def isUnAuthenticated (c : MemberContext) : Bool :=
  c.isAuthenticated

end ThatUs.Member

namespace ThatUs

/-- A context as it stands once the loading scenario has completed with a
found community and both child actors spawned; used as a concrete
configuration context in several concrete evaluations. -/
def loadedCtx : Context :=
  { slug := "acme-co"
    community := some { id := "c1" }
    followMachineServices := some ActorRef.followActor
    activitiesMachineServices := some ActorRef.activitiesActor
    isFollowing := true
    isAuthenticated := true }

/-- A configuration produced by settle has no pending transient
transition, so the single resolution pass of settle already reaches the
stable configuration the interpreter loops towards. -/
theorem settle_stable (v : String → Bool) (c : Context) (s : MState) :
    eventlessNext v c (settle v c s).1 = none := by
  cases s with
  | validating =>
      by_cases h : v c.slug <;>
        simp [settle, eventlessNext, h]
  | loading => rfl
  | communityLoaded ls =>
      cases ls with
      | unknown =>
          by_cases h : c.isAuthenticated <;>
            simp [settle, eventlessNext, isAuthenticated, isUnAuthenticated, h]
      | authenticated a => rfl
      | unAuthenticated => rfl
  | notFound => rfl
  | error => rfl

/-- C1: the claim says a non-null query result leads through
loaded.unknown into loaded.authenticated when context.isAuthenticated is
true and into loaded.unauthenticated when it is false. On the code, the
null case reaches notFound and the non-null case with isAuthenticated
true reaches the authenticated branch, but with isAuthenticated false
the machine rests in communityLoaded.unknown: the second transient guard
isUnAuthenticated also returns context.isAuthenticated, so the
unAuthenticated branch never fires. This theorem evaluates the machine
at all three inputs, exhibiting the divergence in the first conjunct. -/
theorem C1_found_while_unauthenticated_rests_in_unknown :
    (step (fun _ => true) MState.loading (initialContext "acme-co")
        (Event.doneQueryCommunity (some { id := "c1" }))).map (fun r => r.1)
      = some (MState.communityLoaded LoadedState.unknown) ∧
    (step (fun _ => true) MState.loading (initialContext "acme-co")
        (Event.doneQueryCommunity none)).map (fun r => r.1)
      = some MState.notFound ∧
    (step (fun _ => true) MState.loading
        { initialContext "acme-co" with isAuthenticated := true }
        (Event.doneQueryCommunity (some { id := "c1" }))).map (fun r => r.1)
      = some (MState.communityLoaded
          (LoadedState.authenticated AuthState.loadFollowing)) :=
  ⟨rfl, rfl, rfl⟩

/-- C2: for every slug-validity predicate and slug, an invalid slug takes
the freshly started machine from validating to notFound with only the
navigation effect and zero query-community invocations, and a valid slug
takes it to loading with exactly one query-community invocation. -/
theorem C2_validating_routes (v : String → Bool) (slug : String) :
    (v slug = false →
      start v slug
        = (MState.notFound, initialContext slug, [Effect.navigate "/not-found"]) ∧
      (start v slug).2.2.countP isQueryCommunityInvoke = 0) ∧
    (v slug = true →
      start v slug
        = (MState.loading, initialContext slug, [Effect.invokeQueryCommunity slug]) ∧
      (start v slug).2.2.countP isQueryCommunityInvoke = 1) := by
  constructor <;> intro h <;>
    simp [start, goto, settle, eventlessNext, entryEffects, initialContext, h,
      isQueryCommunityInvoke]

/-- Witness for C2 at the empty slug (invalid under a nonempty check) and
at the slug acme-co (valid under the same check). -/
theorem C2_validating_routes_witness :
    start (fun s => !String.isEmpty s) ""
      = (MState.notFound, initialContext "", [Effect.navigate "/not-found"]) ∧
    start (fun s => !String.isEmpty s) "acme-co"
      = (MState.loading, initialContext "acme-co",
          [Effect.invokeQueryCommunity "acme-co"]) :=
  ⟨((C2_validating_routes (fun s => !String.isEmpty s) "").1 rfl).1,
   ((C2_validating_routes (fun s => !String.isEmpty s) "acme-co").2 rfl).1⟩

/-- C3: the claim says an AUTHENTICATED event in either loaded branch
stores the status, re-enters loaded.unknown and settles into the branch
matching the new status, idempotently. On the code, status true settles
into the authenticated branch and repeated identical deliveries are
idempotent, but status false leaves the machine resting in
communityLoaded.unknown instead of the unauthenticated branch, because
guard isUnAuthenticated returns context.isAuthenticated. This theorem
evaluates the machine at both statuses, and shows repeating the false
delivery reproduces the same configuration and context. -/
theorem C3_authenticated_false_rests_in_unknown :
    step (fun _ => true)
        (MState.communityLoaded (LoadedState.authenticated AuthState.loaded))
        loadedCtx (Event.authenticated false)
      = some (MState.communityLoaded LoadedState.unknown,
          { loadedCtx with isAuthenticated := false }, []) ∧
    step (fun _ => true) (MState.communityLoaded LoadedState.unknown)
        { loadedCtx with isAuthenticated := false } (Event.authenticated false)
      = some (MState.communityLoaded LoadedState.unknown,
          { loadedCtx with isAuthenticated := false }, []) ∧
    step (fun _ => true)
        (MState.communityLoaded (LoadedState.authenticated AuthState.loaded))
        loadedCtx (Event.authenticated true)
      = some (MState.communityLoaded
            (LoadedState.authenticated AuthState.loadFollowing),
          loadedCtx, [Effect.invokeQueryMyFollowing]) :=
  ⟨rfl, rfl, rfl⟩

/-- Counterexample to C4: a FOLLOW event delivered in
loaded.authenticated.loadFollowing, a state other than
loaded.authenticated.loaded, is not a no-op: the FOLLOW handler sits on
the authenticated compound state, so the machine moves to toggleFollow
and starts a toggle-follow invocation. -/
theorem C4_counterexample_follow_in_loadFollowing :
    ¬ ((step (fun _ => true)
          (MState.communityLoaded (LoadedState.authenticated AuthState.loadFollowing))
          loadedCtx Event.follow).map (fun r => r.1)
        = some (MState.communityLoaded
            (LoadedState.authenticated AuthState.loadFollowing))) := by
  decide

/-- C4 amended: a FOLLOW event delivered while the loaded.authenticated
compound state is not active leaves state and context unchanged with no
effect; while any substate of loaded.authenticated is active, FOLLOW
moves the machine to loaded.authenticated.toggleFollow and starts one
toggle-follow invocation. -/
theorem C4_follow_outside_authenticated_noop (v : String → Bool)
    (s : MState) (c : Context) :
    ((∀ a, s ≠ MState.communityLoaded (LoadedState.authenticated a)) →
      step v s c Event.follow = some (s, c, [])) ∧
    (∀ a, s = MState.communityLoaded (LoadedState.authenticated a) →
      step v s c Event.follow
        = some (MState.communityLoaded
              (LoadedState.authenticated AuthState.toggleFollow), c,
            [Effect.invokeToggleFollow (c.community.map Community.id)])) := by
  constructor
  · intro h
    cases s with
    | communityLoaded ls =>
        cases ls with
        | authenticated a => exact absurd rfl (h a)
        | unknown => rfl
        | unAuthenticated => rfl
    | validating => rfl
    | loading => rfl
    | notFound => rfl
    | error => rfl
  · intro a h
    subst h
    cases a <;> rfl

/-- Witness for C4 amended: FOLLOW is dropped in validating and moves the
machine from loaded.authenticated.loaded to toggleFollow. -/
theorem C4_follow_outside_authenticated_noop_witness :
    step (fun _ => true) MState.validating (initialContext "x") Event.follow
      = some (MState.validating, initialContext "x", []) ∧
    step (fun _ => true)
        (MState.communityLoaded (LoadedState.authenticated AuthState.loaded))
        loadedCtx Event.follow
      = some (MState.communityLoaded
            (LoadedState.authenticated AuthState.toggleFollow), loadedCtx,
          [Effect.invokeToggleFollow (loadedCtx.community.map Community.id)]) :=
  ⟨(C4_follow_outside_authenticated_noop (fun _ => true) MState.validating
      (initialContext "x")).1 (fun _ h => nomatch h),
   (C4_follow_outside_authenticated_noop (fun _ => true)
      (MState.communityLoaded (LoadedState.authenticated AuthState.loaded))
      loadedCtx).2 AuthState.loaded rfl⟩

/-- C5: a toggle-follow completion delivered while the machine is in any
configuration other than the invoking state
loaded.authenticated.toggleFollow (in particular, after moving to an
error state) fires no transition, runs no action, emits no effect, and
leaves the context, hence context.isFollowing, unchanged. -/
theorem C5_stale_toggleFollow_completion_ignored (v : String → Bool)
    (s : MState) (c : Context) (d : Bool)
    (h : s ≠ MState.communityLoaded
        (LoadedState.authenticated AuthState.toggleFollow)) :
    step v s c (Event.doneToggleFollow d) = some (s, c, []) := by
  cases s with
  | communityLoaded ls =>
      cases ls with
      | authenticated a =>
          cases a with
          | toggleFollow => exact absurd rfl h
          | loadFollowing => rfl
          | loaded => rfl
          | error => rfl
      | unknown => rfl
      | unAuthenticated => rfl
  | validating => rfl
  | loading => rfl
  | notFound => rfl
  | error => rfl

/-- Witness for C5: a late toggle-follow completion arriving in the
nested error state is ignored. -/
theorem C5_stale_toggleFollow_completion_ignored_witness :
    step (fun _ => true)
        (MState.communityLoaded (LoadedState.authenticated AuthState.error))
        loadedCtx (Event.doneToggleFollow true)
      = some (MState.communityLoaded (LoadedState.authenticated AuthState.error),
          loadedCtx, []) :=
  C5_stale_toggleFollow_completion_ignored (fun _ => true)
    (MState.communityLoaded (LoadedState.authenticated AuthState.error))
    loadedCtx true (fun h => nomatch h)

/-- C6: with the follow actor spawned, FOLLOW accepted in
loaded.authenticated.loaded starts a toggle-follow invocation, and the
invocation resolving false stores isFollowing = false, returns the
machine to loaded.authenticated.loaded, and emits exactly one REFRESH
send, addressed to the spawned follow actor. -/
theorem C6_toggleFollow_resolves_false (v : String → Bool) (c : Context)
    (h : c.followMachineServices = some ActorRef.followActor) :
    step v (MState.communityLoaded (LoadedState.authenticated AuthState.loaded))
        c Event.follow
      = some (MState.communityLoaded
            (LoadedState.authenticated AuthState.toggleFollow), c,
          [Effect.invokeToggleFollow (c.community.map Community.id)]) ∧
    step v (MState.communityLoaded (LoadedState.authenticated AuthState.toggleFollow))
        c (Event.doneToggleFollow false)
      = some (MState.communityLoaded (LoadedState.authenticated AuthState.loaded),
          { c with isFollowing := false },
          [Effect.sendRefresh (some ActorRef.followActor)]) ∧
    [Effect.sendRefresh (some ActorRef.followActor)].countP isSendRefresh = 1 := by
  refine ⟨rfl, ?_, rfl⟩
  have e : step v
      (MState.communityLoaded (LoadedState.authenticated AuthState.toggleFollow))
      c (Event.doneToggleFollow false)
      = some (MState.communityLoaded (LoadedState.authenticated AuthState.loaded),
          { c with isFollowing := false },
          [Effect.sendRefresh c.followMachineServices]) := rfl
  rw [e, h]

/-- Witness for C6 at the concrete post-loading context. -/
theorem C6_toggleFollow_resolves_false_witness :
    step (fun _ => true)
        (MState.communityLoaded (LoadedState.authenticated AuthState.toggleFollow))
        loadedCtx (Event.doneToggleFollow false)
      = some (MState.communityLoaded (LoadedState.authenticated AuthState.loaded),
          { loadedCtx with isFollowing := false },
          [Effect.sendRefresh (some ActorRef.followActor)]) :=
  (C6_toggleFollow_resolves_false (fun _ => true) loadedCtx rfl).2.1

/-- The event sequence of the C7 scenario: the community query resolves
to the entity with id c1, authentication arrives with status true, and
the my-following query resolves to the list containing c1 and c2. -/
def scenarioEvents : List Event :=
  [Event.doneQueryCommunity (some { id := "c1" }),
   Event.authenticated true,
   Event.doneQueryMyFollowing ["c1", "c2"]]

/-- C7: starting the machine on the valid slug acme-co and delivering the
scenario events (entity c1 found, authenticated true, my-following list
containing c1) ends in active state loaded.authenticated.loaded with
context.isFollowing = true, since the loaded entity id c1 is a member of
the resolved list. -/
theorem C7_scenario_ends_loaded_following :
    (run (fun s => !String.isEmpty s) "acme-co" scenarioEvents).map
        (fun r => (r.1, r.2.1.isFollowing))
      = some (MState.communityLoaded (LoadedState.authenticated AuthState.loaded),
          true) := by
  rfl

/-- Counterexample to C8: a FOLLOW event delivered while the machine
rests in the nested final state loaded.authenticated.error is still
processed by the ancestor authenticated state and exits the error state
towards toggleFollow, so events are not shut off for that subtree. -/
theorem C8_counterexample_follow_exits_nested_error :
    ¬ ((step (fun _ => true)
          (MState.communityLoaded (LoadedState.authenticated AuthState.error))
          loadedCtx Event.follow).map (fun r => r.1)
        = some (MState.communityLoaded
            (LoadedState.authenticated AuthState.error))) := by
  decide

/-- C8 amended: the top-level notFound and error states are final: every
event delivered there leaves state and context unchanged with no effect,
and entering them performs exactly one side effect, the navigation to
/not-found for notFound and one log call for error. The nested
authenticated.error state also performs exactly one log call on entry
and defines no transitions of its own, so every event other than the
ancestor-handled FOLLOW and AUTHENTICATED is ignored there; those two
ancestor handlers, however, can still exit it. -/
theorem C8_final_state_behaviour (v : String → Bool) (c : Context) (e : Event) :
    step v MState.notFound c e = some (MState.notFound, c, []) ∧
    step v MState.error c e = some (MState.error, c, []) ∧
    entryEffects c MState.notFound = [Effect.navigate "/not-found"] ∧
    entryEffects c MState.error = [Effect.logError] ∧
    entryEffects c (MState.communityLoaded (LoadedState.authenticated AuthState.error))
      = [Effect.logError] ∧
    ((∀ b, e ≠ Event.authenticated b) → e ≠ Event.follow →
      step v (MState.communityLoaded (LoadedState.authenticated AuthState.error)) c e
        = some (MState.communityLoaded (LoadedState.authenticated AuthState.error),
            c, [])) := by
  refine ⟨?_, ?_, rfl, rfl, rfl, ?_⟩
  · cases e <;> rfl
  · cases e <;> rfl
  · intro h1 h2
    cases e with
    | authenticated b => exact absurd rfl (h1 b)
    | follow => exact absurd rfl h2
    | doneQueryCommunity d => rfl
    | errorQueryCommunity => rfl
    | doneQueryMyFollowing d => rfl
    | errorQueryMyFollowing => rfl
    | doneToggleFollow d => rfl
    | errorToggleFollow => rfl

/-- Witness for C8 amended: a toggle-follow completion delivered in the
nested error state is ignored. -/
theorem C8_final_state_behaviour_witness :
    step (fun _ => true)
        (MState.communityLoaded (LoadedState.authenticated AuthState.error))
        loadedCtx (Event.doneToggleFollow true)
      = some (MState.communityLoaded (LoadedState.authenticated AuthState.error),
          loadedCtx, []) :=
  (C8_final_state_behaviour (fun _ => true) loadedCtx
      (Event.doneToggleFollow true)).2.2.2.2.2
    (fun _ h => nomatch h) (fun h => nomatch h)

/-- C9: on the loading onDone transition with a found entity, the assign
action queryCommunitySuccess patches context.community first, and the
two spawn actions that follow in the same batch read the patched value:
both spawn effects carry exactly the entity the query resolved to, and
the resulting context stores it. -/
theorem C9_spawns_see_patched_community (v : String → Bool) (c : Context)
    (e : Community) :
    ∃ s2 c2 rest,
      step v MState.loading c (Event.doneQueryCommunity (some e))
        = some (s2, c2,
            Effect.spawnFollow (some e) :: Effect.spawnActivities (some e) :: rest) ∧
      c2.community = some e :=
  ⟨_, _, _, rfl, rfl⟩

/-- C10: in both machine definitions the guard isUnAuthenticated is
extensionally equal to the guard isAuthenticated: both return
context.isAuthenticated for every context, so no context satisfies
isUnAuthenticated while failing isAuthenticated. -/
theorem C10_isUnAuthenticated_equals_isAuthenticated :
    (∀ c : Context, isUnAuthenticated c = isAuthenticated c) ∧
    (∀ c : Member.MemberContext,
      Member.isUnAuthenticated c = Member.isAuthenticated c) :=
  ⟨fun _ => rfl, fun _ => rfl⟩

end ThatUs
